import Mathlib

/-!
Verification of the allocation-gatekeeper core of `src/gpusnatcher/gpu.py`.

Shallow embedding conventions:
* A Python `dict[str, int]` telemetry record with keys `index`, `memory.free`
  and `memory.total` becomes the structure `GPUInfo`.
* The external subprocess calls (`nvidia-smi`) are passed in as explicit
  arguments: `query_gpu` receives the outcome of `subprocess.check_output`
  (`Except` error when the call raised), and `GPUManager` construction
  receives the result of `get_gpu_count()` as the argument `gpu_counts`.
* Python exceptions become `Except.error` results; a function that can raise
  returns `Except String _` and a caller that does not catch propagates the
  error value.
* The float threshold and the float division `memory.free / memory.total`
  are modelled over `ℚ`, which agrees with exact real semantics of the
  comparisons the claims are about.
* The `CUDA_VISIBLE_DEVICES` environment variable is passed to
  `get_visible_gpus` already split on commas and int-parsed, i.e. as
  `Option (List Int)` (`none` when the variable is unset), matching
  `map(int, cuda_visible.split(","))` on a well-formed variable.
-/

/-- One telemetry record, Python `{"index": _, "memory.free": _, "memory.total": _}`. -/
structure GPUInfo where
  index : Int
  memoryFree : Int
  memoryTotal : Int
deriving DecidableEq

/-- Python `int(s)` on a field, `none` when the literal is invalid
(modulo exotic literal forms such as underscores, which no claim exercises). -/
def pyInt (s : String) : Option Int :=
  s.trim.toInt?

/-- Build one record from one already-split csv line, i.e. Python
`dict(zip(qargs, map(int, r), strict=False))` followed by the three key
accesses every consumer performs.  Extra fields beyond the three queried
columns are dropped by `zip`; a line with fewer than three fields would
produce a partial dict whose missing-key access faults in the consumer, and
an unparsable field raises `ValueError` inside the comprehension — both
failure modes are surfaced here as `Except.error`. -/
def parseFields (r : List String) : Except String GPUInfo :=
  match r with
  | a :: b :: c :: _ =>
    match pyInt a, pyInt b, pyInt c with
    | some i, some f, some t => Except.ok ⟨i, f, t⟩
    | _, _, _ => Except.error "invalid literal for int() with base 10"
  | _ => Except.error "missing telemetry field"

/-- Python `query_gpu()`.  The argument is the outcome of
`subprocess.check_output(cmd, ...)`: `Except.error` when that call raised.
Mirrors the source: a subprocess failure is re-raised as
`RuntimeError("Failed to query GPU:")`; otherwise the output is stripped,
split into lines, each line stripped and split on `", "`, and each record
parsed.  The declared Python return type admits `None`, so the result type
is `Except String (Option (List GPUInfo))`; the body, like the source,
only ever produces an error or `some` list. -/
def query_gpu (subprocessOutput : Except String String) :
    Except String (Option (List GPUInfo)) :=
  match subprocessOutput with
  | Except.error _ => Except.error "Failed to query GPU:"
  | Except.ok output =>
    let results := (output.trim.splitOn "\n").map (fun line => line.trim.splitOn ", ")
    match results.mapM parseFields with
    | Except.error e => Except.error e
    | Except.ok gpus => Except.ok (some gpus)

/-- The state of a Python `GPUManager` instance. -/
structure GPUManager where
  num_gpus : Int
  gpu_free_memory_ratio_threshold : ℚ
  snatched_gpus : List Int
  gpu_maps : Option (List (Int × Nat))
deriving DecidableEq

/-- Python `GPUManager.get_num_gpus(self, num_gpus)`.  `gpu_counts` is the
result of the external `get_gpu_count()` call. -/
def GPUManager.get_num_gpus (gpu_counts : Int) (num_gpus : Int) : Except String Int :=
  if num_gpus = -1 ∨ num_gpus > gpu_counts then
    Except.ok gpu_counts
  else if num_gpus < 0 then
    Except.error "num_gpus must be -1 or a non-negative integer."
  else
    Except.ok num_gpus

/-- Python `GPUManager.__init__`: resolves the requested count through
`get_num_gpus` (propagating its `ValueError`), stores the threshold as-is,
and starts with no snatched GPUs and no index map. -/
def GPUManager.init (gpu_counts : Int) (num_gpus : Int)
    (gpu_free_memory_ratio_threshold : ℚ) : Except String GPUManager :=
  match GPUManager.get_num_gpus gpu_counts num_gpus with
  | Except.error e => Except.error e
  | Except.ok n =>
    Except.ok
      { num_gpus := n
        gpu_free_memory_ratio_threshold := gpu_free_memory_ratio_threshold
        snatched_gpus := []
        gpu_maps := none }

/-- Python property `GPUManager.num_snatched_gpus`: `len(self.snatched_gpus)`. -/
def GPUManager.num_snatched_gpus (self : GPUManager) : Int :=
  (self.snatched_gpus.length : Int)

/-- Python `GPUManager.get_num_gpus_needed`:
`max(self.num_gpus - self.num_snatched_gpus, 0)`. -/
def GPUManager.get_num_gpus_needed (self : GPUManager) : Int :=
  max (self.num_gpus - self.num_snatched_gpus) 0

/-- Python `GPUManager.get_visible_gpus(self, gpus)`.  `cuda_visible` is the
parsed `CUDA_VISIBLE_DEVICES` environment variable.  Returns the updated
manager state together with the returned list (the Python method mutates
`self.gpu_maps` in the restricted branch). -/
def GPUManager.get_visible_gpus (self : GPUManager) (cuda_visible : Option (List Int))
    (gpus : List GPUInfo) : GPUManager × List GPUInfo :=
  match cuda_visible with
  | none => (self, gpus)
  | some visList =>
    let visible_gpus := gpus.filter (fun gpu => decide (gpu.index ∈ visList))
    ({ self with
        gpu_maps := some (visible_gpus.enum.map (fun p => (p.2.index, p.1))) },
      visible_gpus)

/-- Lookup in a Python dict built from an ordered list of key/value pairs:
a later pair with the same key overwrites an earlier one, so the lookup
returns the value of the last matching pair. -/
def pyDictLookup (pairs : List (Int × Nat)) (k : Int) : Option Nat :=
  ((pairs.filter (fun p => decide (p.1 = k))).getLast?).map Prod.snd

/-- Python `GPUManager.get_free_gpus(self)`.  `queryResult` is the outcome of
the `query_gpu()` call (the composition with `query_gpu` itself is used where
a claim is about the failure path).  An exception from `query_gpu` is not
caught, so it propagates; a `None` result returns the empty list; otherwise
the visibility restriction is applied and the strict free-ratio filter is
taken. -/
def GPUManager.get_free_gpus (self : GPUManager)
    (queryResult : Except String (Option (List GPUInfo)))
    (cuda_visible : Option (List Int)) : Except String (GPUManager × List GPUInfo) :=
  match queryResult with
  | Except.error e => Except.error e
  | Except.ok none => Except.ok (self, [])
  | Except.ok (some gpus) =>
    let r := self.get_visible_gpus cuda_visible gpus
    Except.ok
      (r.1,
        r.2.filter (fun gpu =>
          decide (r.1.gpu_free_memory_ratio_threshold <
            (gpu.memoryFree : ℚ) / (gpu.memoryTotal : ℚ))))

/-- C3: for every host device count `n ≥ 0`, construction resolves the
requested count to the target count: `-1` yields `n`, a request above `n` is
clamped to `n`, and a request in `[0, n]` is returned unchanged. -/
theorem get_num_gpus_resolution (n requested : Int) (hn : 0 ≤ n) :
    GPUManager.get_num_gpus n (-1) = Except.ok n ∧
    (requested > n → GPUManager.get_num_gpus n requested = Except.ok n) ∧
    (0 ≤ requested → requested ≤ n → GPUManager.get_num_gpus n requested = Except.ok requested) := by
  refine ⟨?_, ?_, ?_⟩
  · simp [GPUManager.get_num_gpus]
  · intro h
    simp [GPUManager.get_num_gpus, h]
  · intro h0 h1
    have hne : requested ≠ -1 := by omega
    have hgt : ¬ requested > n := by omega
    have hlt : ¬ requested < 0 := by omega
    simp [GPUManager.get_num_gpus, hne, hgt, hlt]

/-- C3 witness at `n = 4`: `-1` resolves to `4`, `10` clamps to `4`, and `3`
is kept. -/
theorem get_num_gpus_resolution_witness :
    GPUManager.get_num_gpus 4 (-1) = Except.ok 4 ∧
    GPUManager.get_num_gpus 4 10 = Except.ok 4 ∧
    GPUManager.get_num_gpus 4 3 = Except.ok 3 := by
  have h := get_num_gpus_resolution 4 10 (by decide)
  have h2 := get_num_gpus_resolution 4 3 (by decide)
  exact ⟨h.1, h.2.1 (by decide), h2.2.2 (by decide) (by decide)⟩

/-- C4: for every requested count `< -1` and host device count `n ≥ 0`,
construction fails with the `ValueError` and produces no manager. -/
theorem init_invalid_argument (n requested : Int) (thr : ℚ)
    (hn : 0 ≤ n) (h : requested < -1) :
    GPUManager.init n requested thr =
      Except.error "num_gpus must be -1 or a non-negative integer." := by
  have hne : requested ≠ -1 := by omega
  have hgt : ¬ requested > n := by omega
  have hlt : requested < 0 := by omega
  simp [GPUManager.init, GPUManager.get_num_gpus, hne, hgt, hlt]

/-- C4 witness: construction with requested count `-2` on a 4-device host
fails. -/
theorem init_invalid_argument_witness :
    GPUManager.init 4 (-2) (17/20) =
      Except.error "num_gpus must be -1 or a non-negative integer." :=
  init_invalid_argument 4 (-2) (17/20) (by decide) (by decide)

/-- C6: `get_num_gpus_needed` equals `max(num_gpus - num_snatched_gpus, 0)`;
it is never negative, and equals the plain difference whenever that
difference is non-negative. -/
theorem get_num_gpus_needed_spec (st : GPUManager) :
    st.get_num_gpus_needed = max (st.num_gpus - st.num_snatched_gpus) 0 ∧
    0 ≤ st.get_num_gpus_needed ∧
    (0 ≤ st.num_gpus - st.num_snatched_gpus →
      st.get_num_gpus_needed = st.num_gpus - st.num_snatched_gpus) := by
  refine ⟨rfl, le_max_right _ _, fun h => max_eq_left h⟩

/-- C6 witness: a manager with target 3 and two snatched GPUs needs one
more. -/
theorem get_num_gpus_needed_spec_witness :
    GPUManager.get_num_gpus_needed ⟨3, 17/20, [0, 1], none⟩ = 1 ∧
    0 ≤ GPUManager.get_num_gpus_needed ⟨3, 17/20, [0, 1], none⟩ := by
  have h := get_num_gpus_needed_spec ⟨3, 17/20, [0, 1], none⟩
  exact ⟨by rw [h.2.2 (by decide)]; decide, h.2.1⟩

/-- C7: with `CUDA_VISIBLE_DEVICES` unset, `get_visible_gpus` returns the
input list unchanged and leaves the manager state (in particular
`gpu_maps`) exactly as it was. -/
theorem get_visible_gpus_no_restriction (st : GPUManager) (gpus : List GPUInfo) :
    st.get_visible_gpus none gpus = (st, gpus) :=
  rfl

/-- C7 witness: a concrete unrestricted call is the identity. -/
theorem get_visible_gpus_no_restriction_witness :
    GPUManager.get_visible_gpus ⟨1, 17/20, [], none⟩ none [⟨0, 5, 10⟩]
      = (⟨1, 17/20, [], none⟩, [⟨0, 5, 10⟩]) :=
  get_visible_gpus_no_restriction ⟨1, 17/20, [], none⟩ [⟨0, 5, 10⟩]

/-- In the dict built by `{gpu["index"]: i for i, gpu in enumerate(visible_gpus)}`
(generalised to enumeration starting at `n`), a list with pairwise distinct
indices maps the index of its `i`-th element to `n + i`. -/
theorem pyDictLookup_enumFrom (l : List GPUInfo) (n : Nat)
    (hnd : (l.map GPUInfo.index).Nodup) :
    ∀ (i : Nat) (h : i < l.length),
      pyDictLookup ((l.enumFrom n).map (fun p => (p.2.index, p.1)))
        ((l.get ⟨i, h⟩).index) = some (n + i) := by
  induction l generalizing n with
  | nil =>
    intro i h
    exact absurd h (Nat.not_lt_zero i)
  | cons a l ih =>
    intro i h
    have hna : a.index ∉ l.map GPUInfo.index := (List.nodup_cons.mp hnd).1
    have hnd' : (l.map GPUInfo.index).Nodup := (List.nodup_cons.mp hnd).2
    cases i with
    | zero =>
      have htail : (((l.enumFrom (n + 1)).map (fun p => (p.2.index, p.1))).filter
          (fun p => decide (p.1 = a.index))) = [] := by
        rw [List.filter_eq_nil_iff]
        intro p hp
        obtain ⟨q, hq, rfl⟩ := List.mem_map.mp hp
        have hq2 : q.2 ∈ l := by
          have := List.mem_map_of_mem Prod.snd hq
          rwa [List.enumFrom_map_snd] at this
        simp only [decide_eq_true_eq]
        intro heq
        exact hna (heq ▸ List.mem_map_of_mem GPUInfo.index hq2)
      simp [pyDictLookup, List.enumFrom, List.filter_cons, htail]
    | succ i =>
      have hil : i < l.length := Nat.lt_of_succ_lt_succ h
      have hkey : (l.get ⟨i, hil⟩).index ∈ l.map GPUInfo.index :=
        List.mem_map_of_mem GPUInfo.index (l.get_mem i hil)
      have hne : ¬ (a.index = (l.get ⟨i, hil⟩).index) := fun heq => hna (heq ▸ hkey)
      have hrec := ih (n + 1) hnd' i hil
      have hfil2 : (((a.index, n) :: (l.enumFrom (n + 1)).map (fun p => (p.2.index, p.1))).filter
            (fun p => decide (p.1 = (l.get ⟨i, hil⟩).index)))
          = (((l.enumFrom (n + 1)).map (fun p => (p.2.index, p.1))).filter
            (fun p => decide (p.1 = (l.get ⟨i, hil⟩).index))) := by
        simp only [List.filter_cons]
        rw [if_neg]
        simpa using hne
      have harith : n + 1 + i = n + (i + 1) := by omega
      show pyDictLookup ((a.index, n) :: (l.enumFrom (n + 1)).map (fun p => (p.2.index, p.1)))
          ((l.get ⟨i, hil⟩).index) = some (n + (i + 1))
      unfold pyDictLookup at hrec ⊢
      rw [hfil2, hrec, harith]

/-- C2: with a restriction present, `get_visible_gpus` returns exactly the
devices whose physical index appears in the restriction, in the order those
devices appear in the input telemetry list, and `gpu_maps` maps each kept
device's physical index to its 0-based position in the filtered list.
Distinctness of the telemetry indices reflects the data-model invariant of
one record per physical device. -/
theorem get_visible_gpus_restriction (st : GPUManager) (visList : List Int)
    (gpus : List GPUInfo) (hnd : (gpus.map GPUInfo.index).Nodup) :
    (st.get_visible_gpus (some visList) gpus).2
      = gpus.filter (fun g => decide (g.index ∈ visList)) ∧
    ∃ m, (st.get_visible_gpus (some visList) gpus).1.gpu_maps = some m ∧
      ∀ (i : Nat) (h : i < (st.get_visible_gpus (some visList) gpus).2.length),
        pyDictLookup m (((st.get_visible_gpus (some visList) gpus).2).get ⟨i, h⟩).index
          = some i := by
  refine ⟨rfl, _, rfl, ?_⟩
  intro i h
  have hnodupf : ((gpus.filter (fun g => decide (g.index ∈ visList))).map GPUInfo.index).Nodup :=
    List.Nodup.sublist (List.Sublist.map GPUInfo.index (List.filter_sublist gpus)) hnd
  have := pyDictLookup_enumFrom (gpus.filter (fun g => decide (g.index ∈ visList))) 0 hnodupf i h
  simpa using this

/-- C2 witness: restriction `[2, 0]` over telemetry indices `[0, 1, 2]`
keeps `[index 0, index 2]` in telemetry order, with the index map sending
`0 ↦ 0` and `2 ↦ 1`. -/
theorem get_visible_gpus_restriction_witness :
    (([⟨0, 10, 100⟩, ⟨1, 10, 100⟩, ⟨2, 10, 100⟩] : List GPUInfo).map GPUInfo.index).Nodup ∧
    (GPUManager.get_visible_gpus ⟨3, 17/20, [], none⟩ (some [2, 0])
        [⟨0, 10, 100⟩, ⟨1, 10, 100⟩, ⟨2, 10, 100⟩]).2
      = [⟨0, 10, 100⟩, ⟨2, 10, 100⟩] ∧
    (GPUManager.get_visible_gpus ⟨3, 17/20, [], none⟩ (some [2, 0])
        [⟨0, 10, 100⟩, ⟨1, 10, 100⟩, ⟨2, 10, 100⟩]).1.gpu_maps
      = some [(0, 0), (2, 1)] ∧
    pyDictLookup [(0, 0), (2, 1)] 0 = some 0 ∧
    pyDictLookup [(0, 0), (2, 1)] 2 = some 1 := by
  have h := get_visible_gpus_restriction ⟨3, 17/20, [], none⟩ [2, 0]
    [⟨0, 10, 100⟩, ⟨1, 10, 100⟩, ⟨2, 10, 100⟩] (by decide)
  refine ⟨by decide, ?_, by decide, by decide, by decide⟩
  rw [h.1]
  decide

/-- C9: a restriction entry whose index matches no telemetry record is
silently ignored: removing it from the restriction list changes neither the
returned list nor the resulting manager state (so it contributes nothing to
the restricted subset or the index map), and no error is possible. -/
theorem get_visible_gpus_ignores_unknown (st : GPUManager) (gpus : List GPUInfo)
    (v₁ v₂ : List Int) (j : Int) (hj : ∀ g ∈ gpus, g.index ≠ j) :
    st.get_visible_gpus (some (v₁ ++ j :: v₂)) gpus
      = st.get_visible_gpus (some (v₁ ++ v₂)) gpus := by
  have hfil : gpus.filter (fun g => decide (g.index ∈ v₁ ++ j :: v₂))
      = gpus.filter (fun g => decide (g.index ∈ v₁ ++ v₂)) := by
    apply List.filter_congr
    intro g hg
    rw [decide_eq_decide]
    simp [List.mem_append, List.mem_cons, hj g hg]
  simp only [GPUManager.get_visible_gpus, hfil]

/-- C9 witness: restriction `[5]` over telemetry indices `[0, 1]` behaves
exactly like the empty restriction. -/
theorem get_visible_gpus_ignores_unknown_witness :
    (∀ g ∈ ([⟨0, 5, 10⟩, ⟨1, 5, 10⟩] : List GPUInfo), g.index ≠ 5) ∧
    GPUManager.get_visible_gpus ⟨2, 17/20, [], none⟩ (some ([] ++ 5 :: []))
        [⟨0, 5, 10⟩, ⟨1, 5, 10⟩]
      = GPUManager.get_visible_gpus ⟨2, 17/20, [], none⟩ (some ([] ++ []))
        [⟨0, 5, 10⟩, ⟨1, 5, 10⟩] :=
  ⟨by decide, get_visible_gpus_ignores_unknown ⟨2, 17/20, [], none⟩
    [⟨0, 5, 10⟩, ⟨1, 5, 10⟩] [] [] 5 (by decide)⟩

/-- The visibility pass never changes the stored threshold. -/
theorem get_visible_gpus_threshold (st : GPUManager) (cv : Option (List Int))
    (gpus : List GPUInfo) :
    (st.get_visible_gpus cv gpus).1.gpu_free_memory_ratio_threshold
      = st.gpu_free_memory_ratio_threshold := by
  cases cv <;> rfl

/-- Every device surviving the visibility restriction comes from the input
telemetry list. -/
theorem mem_of_mem_get_visible_gpus (st : GPUManager) (cv : Option (List Int))
    (gpus : List GPUInfo) (g : GPUInfo) (hg : g ∈ (st.get_visible_gpus cv gpus).2) :
    g ∈ gpus := by
  cases cv with
  | none => exact hg
  | some v => exact List.mem_of_mem_filter hg

/-- Unfolding of `get_free_gpus` on a successful query: the state comes from
the visibility pass and the result is the strict free-ratio filter of the
visible devices (the threshold read after the visibility pass equals the
stored one, since `get_visible_gpus` only touches `gpu_maps`). -/
theorem get_free_gpus_ok (st : GPUManager) (cv : Option (List Int))
    (gpus : List GPUInfo) :
    st.get_free_gpus (Except.ok (some gpus)) cv
      = Except.ok ((st.get_visible_gpus cv gpus).1,
          (st.get_visible_gpus cv gpus).2.filter (fun gpu =>
            decide (st.gpu_free_memory_ratio_threshold <
              (gpu.memoryFree : ℚ) / (gpu.memoryTotal : ℚ)))) := by
  have hth := get_visible_gpus_threshold st cv gpus
  rw [show st.get_free_gpus (Except.ok (some gpus)) cv
      = Except.ok ((st.get_visible_gpus cv gpus).1,
          (st.get_visible_gpus cv gpus).2.filter (fun gpu =>
            decide ((st.get_visible_gpus cv gpus).1.gpu_free_memory_ratio_threshold <
              (gpu.memoryFree : ℚ) / (gpu.memoryTotal : ℚ)))) from rfl, hth]

/-- C5: on a successful query, a device appears in the `get_free_gpus`
result exactly when it survives the visibility restriction and its free
ratio strictly exceeds the threshold (so a device exactly at the threshold
is excluded). -/
theorem get_free_gpus_membership (st : GPUManager) (cv : Option (List Int))
    (gpus : List GPUInfo) (htot : ∀ g ∈ gpus, 0 < g.memoryTotal) (g : GPUInfo) :
    ∃ l, st.get_free_gpus (Except.ok (some gpus)) cv
        = Except.ok ((st.get_visible_gpus cv gpus).1, l) ∧
      (g ∈ l ↔ g ∈ (st.get_visible_gpus cv gpus).2 ∧
        st.gpu_free_memory_ratio_threshold
          < (g.memoryFree : ℚ) / (g.memoryTotal : ℚ)) := by
  refine ⟨_, get_free_gpus_ok st cv gpus, ?_⟩
  rw [List.mem_filter]
  simp [decide_eq_true_eq]

/-- C5 witness at threshold `1/2` over two devices with ratios `60/100` and
`40/100`, asking about the first device. -/
theorem get_free_gpus_membership_witness :
    (∀ g ∈ ([⟨0, 60, 100⟩, ⟨1, 40, 100⟩] : List GPUInfo), 0 < g.memoryTotal) ∧
    (∃ l, GPUManager.get_free_gpus ⟨2, 1/2, [], none⟩
          (Except.ok (some [⟨0, 60, 100⟩, ⟨1, 40, 100⟩])) none
        = Except.ok ((GPUManager.get_visible_gpus ⟨2, 1/2, [], none⟩ none
            [⟨0, 60, 100⟩, ⟨1, 40, 100⟩]).1, l) ∧
      ((⟨0, 60, 100⟩ : GPUInfo) ∈ l ↔
        (⟨0, 60, 100⟩ : GPUInfo) ∈ (GPUManager.get_visible_gpus ⟨2, 1/2, [], none⟩ none
            [⟨0, 60, 100⟩, ⟨1, 40, 100⟩]).2 ∧
        (⟨2, 1/2, [], none⟩ : GPUManager).gpu_free_memory_ratio_threshold
          < (((⟨0, 60, 100⟩ : GPUInfo).memoryFree : ℚ)
              / ((⟨0, 60, 100⟩ : GPUInfo).memoryTotal : ℚ)))) :=
  ⟨by decide, get_free_gpus_membership ⟨2, 1/2, [], none⟩ none
    [⟨0, 60, 100⟩, ⟨1, 40, 100⟩] (by decide) ⟨0, 60, 100⟩⟩

/-- C8 (amended): any threshold is accepted at construction; a threshold
`≥ 1` makes no device eligible, and a threshold `< 0` makes every visible
device eligible.  (At threshold `= 0` a device with zero free memory is not
eligible — see the counterexample theorem.) -/
theorem threshold_out_of_range (gpu_counts requested : Int) (thr : ℚ)
    (hreq : -1 ≤ requested) (st : GPUManager) (cv : Option (List Int))
    (gpus : List GPUInfo) :
    (∃ st0, GPUManager.init gpu_counts requested thr = Except.ok st0 ∧
        st0.gpu_free_memory_ratio_threshold = thr) ∧
    (1 ≤ st.gpu_free_memory_ratio_threshold →
      (∀ g ∈ gpus, 0 ≤ g.memoryFree ∧ g.memoryFree ≤ g.memoryTotal ∧ 0 < g.memoryTotal) →
      st.get_free_gpus (Except.ok (some gpus)) cv
        = Except.ok ((st.get_visible_gpus cv gpus).1, [])) ∧
    (st.gpu_free_memory_ratio_threshold < 0 →
      (∀ g ∈ gpus, 0 ≤ g.memoryFree ∧ g.memoryFree ≤ g.memoryTotal ∧ 0 < g.memoryTotal) →
      st.get_free_gpus (Except.ok (some gpus)) cv
        = Except.ok ((st.get_visible_gpus cv gpus).1, (st.get_visible_gpus cv gpus).2)) := by
  refine ⟨?_, ?_, ?_⟩
  · have hok : ∃ nn, GPUManager.get_num_gpus gpu_counts requested = Except.ok nn := by
      unfold GPUManager.get_num_gpus
      by_cases h1 : requested = -1 ∨ requested > gpu_counts
      · exact ⟨gpu_counts, by simp [h1]⟩
      · have h2 : ¬ requested < 0 := by omega
        exact ⟨requested, by simp [h1, h2]⟩
    obtain ⟨nn, hok⟩ := hok
    refine ⟨⟨nn, thr, [], none⟩, ?_, rfl⟩
    simp [GPUManager.init, hok]
  · intro h1 hg
    rw [get_free_gpus_ok]
    have hfe : (st.get_visible_gpus cv gpus).2.filter (fun gpu =>
        decide (st.gpu_free_memory_ratio_threshold <
          (gpu.memoryFree : ℚ) / (gpu.memoryTotal : ℚ))) = [] := by
      rw [List.filter_eq_nil_iff]
      intro g hgmem
      have hgprop := hg g (mem_of_mem_get_visible_gpus st cv gpus g hgmem)
      simp only [decide_eq_true_eq]
      intro hlt
      have htotq : (0 : ℚ) < (g.memoryTotal : ℚ) := by exact_mod_cast hgprop.2.2
      have hub : (g.memoryFree : ℚ) / (g.memoryTotal : ℚ) ≤ 1 := by
        rw [div_le_one htotq]
        exact_mod_cast hgprop.2.1
      linarith
    rw [hfe]
  · intro h1 hg
    rw [get_free_gpus_ok]
    have hfe : (st.get_visible_gpus cv gpus).2.filter (fun gpu =>
        decide (st.gpu_free_memory_ratio_threshold <
          (gpu.memoryFree : ℚ) / (gpu.memoryTotal : ℚ)))
        = (st.get_visible_gpus cv gpus).2 := by
      rw [List.filter_eq_self]
      intro g hgmem
      have hgprop := hg g (mem_of_mem_get_visible_gpus st cv gpus g hgmem)
      simp only [decide_eq_true_eq]
      have hfq : (0 : ℚ) ≤ (g.memoryFree : ℚ) := by exact_mod_cast hgprop.1
      have htq : (0 : ℚ) ≤ (g.memoryTotal : ℚ) := by
        have := hgprop.2.2
        exact_mod_cast le_of_lt this
      have := div_nonneg hfq htq
      linarith
    rw [hfe]

/-- C8 witness: threshold `3/2` (outside `(0,1)`) is accepted at
construction on a 4-device host with requested count `2`. -/
theorem threshold_out_of_range_witness :
    (-1 : Int) ≤ 2 ∧
    (∃ st0, GPUManager.init 4 2 (3/2) = Except.ok st0 ∧
        st0.gpu_free_memory_ratio_threshold = 3/2) :=
  ⟨by decide, (threshold_out_of_range 4 2 (3/2) (by decide)
    ⟨2, 3/2, [], none⟩ none [⟨0, 50, 100⟩]).1⟩

/-- C8 counterexample to the claim as stated: the threshold `0` lies outside
`(0, 1)` and is `≤ 0`, the device `{index 0, free 0, total 1}` satisfies
`0 ≤ freeMemory ≤ totalMemory` and `totalMemory > 0`, yet `get_free_gpus`
does not make it eligible (`0/1 > 0` fails), so a threshold `≤ 0` does not
make every device eligible. -/
theorem threshold_zero_counterexample :
    (⟨1, 0, [], none⟩ : GPUManager).gpu_free_memory_ratio_threshold ≤ 0 ∧
    (0 : Int) ≤ (⟨0, 0, 1⟩ : GPUInfo).memoryFree ∧
    (⟨0, 0, 1⟩ : GPUInfo).memoryFree ≤ (⟨0, 0, 1⟩ : GPUInfo).memoryTotal ∧
    (0 : Int) < (⟨0, 0, 1⟩ : GPUInfo).memoryTotal ∧
    GPUManager.get_free_gpus ⟨1, 0, [], none⟩ (Except.ok (some [⟨0, 0, 1⟩])) none
      = Except.ok (⟨1, 0, [], none⟩, []) := by
  refine ⟨le_refl 0, by decide, by decide, by decide, ?_⟩
  rw [get_free_gpus_ok]
  norm_num [GPUManager.get_visible_gpus]

/-- C1: on a failed telemetry query the code does not return the empty
list: the `RuntimeError` raised by `query_gpu` propagates out of
`get_free_gpus` (the spec's degrade-to-empty policy matches the dead
`None`-check and `query_gpu`'s docstring, but not the code's behaviour). -/
theorem get_free_gpus_propagates_query_failure :
    GPUManager.get_free_gpus ⟨1, 17/20, [], none⟩
      (query_gpu (Except.error "FileNotFoundError")) none
      = Except.error "Failed to query GPU:" :=
  rfl

/-- C10: `query_gpu` never produces `None`: for every subprocess outcome it
either raises (error result) or returns `some` list of records, so the
`None`-check branch of `get_free_gpus` is unreachable when its argument
comes from `query_gpu`. -/
theorem query_gpu_never_none (subprocessOutput : Except String String) :
    (∃ e, query_gpu subprocessOutput = Except.error e) ∨
    (∃ gpus, query_gpu subprocessOutput = Except.ok (some gpus)) := by
  cases subprocessOutput with
  | error e => exact Or.inl ⟨"Failed to query GPU:", rfl⟩
  | ok output =>
    cases h : ((output.trim.splitOn "\n").map (fun line => line.trim.splitOn ", ")).mapM
        parseFields with
    | error e =>
      refine Or.inl ⟨e, ?_⟩
      simp only [query_gpu]
      rw [h]
    | ok gpus =>
      refine Or.inr ⟨gpus, ?_⟩
      simp only [query_gpu]
      rw [h]

/-- C10 witness: a failing subprocess yields an error (not `None`), by the
general theorem. -/
theorem query_gpu_never_none_witness :
    (∃ e, query_gpu (Except.error "no nvidia-smi") = Except.error e) ∨
    (∃ gpus, query_gpu (Except.error "no nvidia-smi") = Except.ok (some gpus)) :=
  query_gpu_never_none (Except.error "no nvidia-smi")
